import Mathlib

/-!
Shallow embedding of the JungleSales company decay system.

Source layout:
- src/bin/daily-update.js : the decay tick handler (the core transition);
- src/db.js               : the MongoDB Stitch store adapter (fetch/update/upsert);
- src/unnamed/part_000    : the Company model (repository facade over db.js).

JavaScript records are dynamic; we embed a Company document with the optional
fields the program reads and writes, absent fields as none.  The numeric
countdown is an Int (JS subtraction can go negative).
-/

/-- A company document as stored in the companies collection.  The field
mongoId embeds the store-assigned JS field _id (renamed because Lean
identifiers starting with an underscore clash with pattern placeholders). -/
structure Company where
  mongoId : Option Nat := none
  user : Option Int := none
  name : String := ""
  phone_number : Option String := none
  time_stamp : Option Int := none
  level : Option Int := none
  tier : Option String := none
deriving Repr, DecidableEq

/-- A partial document, as passed to the store adapter and applied via
MongoDB $set: only the fields present are written.  These are the four
fields the decay tick handler ever writes. -/
structure UpdateData where
  time_stamp : Option Int := none
  tier : Option String := none
  user : Option Int := none
  level : Option Int := none
deriving Repr, DecidableEq

/-- The decay tick handler of src/bin/daily-update.js, per record: if
time_stamp is undefined nothing is issued; otherwise level defaults to 5,
time is decremented, a decremented value of 1000 is replaced by 7, and the
update data is built.  Faithful to the source: the terminal branch builds
data = \x7btier: "graveyard", user: 0, level: level\x7d WITHOUT a time_stamp
field (the statement time = 0 that follows it in the source only rebinds the
local variable and is dead), and the else branch builds
data = \x7btime_stamp: time, level: level\x7d.  The result is the pair
(name, data) passed to Company.update, or none when no call is issued. -/
def dailyUpdateData (c : Company) : Option (String × UpdateData) :=
  match c.time_stamp with
  | none => none
  | some t0 =>
    let level : Int := match c.level with | none => 5 | some l => l
    let t1 : Int := t0 - 1
    let t2 : Int := if t1 = 1000 then 7 else t1
    if t2 ≤ 0 then
      some (c.name, { tier := some "graveyard", user := some 0, level := some level })
    else
      some (c.name, { time_stamp := some t2, level := some level })

/-- MongoDB $set applied to one document: each field present in the update
data overwrites the document field, absent fields are untouched. -/
def applySet (c : Company) (d : UpdateData) : Company :=
  { c with
    time_stamp := match d.time_stamp with | none => c.time_stamp | some v => some v,
    tier := match d.tier with | none => c.tier | some v => some v,
    user := match d.user with | none => c.user | some v => some v,
    level := match d.level with | none => c.level | some v => some v }

/-- Modelled from the spec: the store-native write semantics of
collection.updateOne(\x7bname: crit\x7d, \x7b$set: data\x7d, \x7bupsert\x7d)
invoked by src/db.js (the MongoDB library itself is an external collaborator,
not in src/).  Per the spec, writes are per-document on the matched document:
updateOne modifies only the first document whose name equals crit; with
upsert, when no document matches, it inserts a new document built from the
equality filter (name := crit) with $set applied. -/
def updateOne (docs : List Company) (crit : String) (d : UpdateData) (upsert : Bool) :
    List Company :=
  match docs with
  | [] => if upsert then [applySet { name := crit } d] else []
  | c :: rest =>
    if c.name = crit then applySet c d :: rest
    else c :: updateOne rest crit d upsert

/-- src/db.js exports.update: updateOne on the name filter with upsert false.
The data argument is an Option because the Company model calls db.update with
only one argument, so data can arrive as JS undefined; $set: undefined is
rejected by the store, the promise rejection is caught and logged, and no
document changes. -/
def db.update (docs : List Company) (crit : String) (data : Option UpdateData) :
    List Company :=
  match data with
  | none => docs
  | some d => updateOne docs crit d false

/-- src/db.js exports.upsert: updateOne on the name filter with upsert true. -/
def db.upsert (docs : List Company) (crit : String) (data : UpdateData) : List Company :=
  updateOne docs crit data true

/-- src/unnamed/part_000 exports.update = function(crit) \x7b db.update(crit); \x7d :
the model layer declares only the crit parameter, so the partial-fields
argument its callers pass is dropped and db.update receives data = undefined
(embedded as none). -/
def Company.update (docs : List Company) (crit : String) (_data : UpdateData) :
    List Company :=
  db.update docs crit none

/-- One scheduler tick of src/bin/daily-update.js over the store: Company.all
returns a snapshot of all documents, and for each record with a defined
time_stamp the handler issues Company.update(name, data) with the computed
partial data. -/
def schedulerTick (docs : List Company) : List Company :=
  docs.foldl
    (fun store c =>
      match dailyUpdateData c with
      | none => store
      | some (name, data) => Company.update store name data)
    docs

/-- Branch lemma: when the decremented countdown equals 1000 (stored value
1001), the handler emits the reset data (time_stamp 7, level defaulted). -/
theorem dailyUpdateData_reset (c : Company) (t : Int)
    (h1 : c.time_stamp = some t) (h2 : t - 1 = 1000) :
    dailyUpdateData c =
      some (c.name, { time_stamp := some 7, level := some (c.level.getD 5) }) := by
  have ht : t = 1001 := by omega
  subst ht
  cases hl : c.level <;>
    simp [dailyUpdateData, h1, hl, Option.getD]

/-- Branch lemma: when the decremented countdown is positive and not the
sentinel 1000, the handler emits the decrement data. -/
theorem dailyUpdateData_decrement (c : Company) (t : Int)
    (h1 : c.time_stamp = some t) (h2 : 0 < t - 1) (h3 : t - 1 ≠ 1000) :
    dailyUpdateData c =
      some (c.name, { time_stamp := some (t - 1), level := some (c.level.getD 5) }) := by
  have hpos : ¬ t - 1 ≤ 0 := by omega
  cases hl : c.level <;>
    simp [dailyUpdateData, h1, hl, Option.getD, h3, hpos]

/-- Branch lemma: when the decremented countdown is at or below zero, the
handler emits the terminal graveyard data, which carries no time_stamp
field. -/
theorem dailyUpdateData_terminal (c : Company) (t : Int)
    (h1 : c.time_stamp = some t) (h2 : t - 1 ≤ 0) :
    dailyUpdateData c =
      some (c.name,
        { tier := some "graveyard", user := some 0, level := some (c.level.getD 5) }) := by
  have hne : t - 1 ≠ 1000 := by omega
  cases hl : c.level <;>
    simp [dailyUpdateData, h1, hl, Option.getD, hne, h2]

/-- Branch lemma: a record with undefined time_stamp produces no update call. -/
theorem dailyUpdateData_none (c : Company) (h : c.time_stamp = none) :
    dailyUpdateData c = none := by
  simp [dailyUpdateData, h]

/-- C1: the claim says the terminal branch persists time_stamp = 0.  Evaluating
the code at the failing input (name Acme, time_stamp 1, level 3): the emitted
update data is \x7btier: "graveyard", user: 0, level: 3\x7d with NO time_stamp
field, so the merged document keeps time_stamp 1, not 0. -/
theorem C1_terminal_omits_time_stamp :
    dailyUpdateData { name := "Acme", time_stamp := some 1, level := some 3 } =
      some ("Acme", { tier := some "graveyard", user := some 0, level := some 3 }) ∧
    (applySet { name := "Acme", time_stamp := some 1, level := some 3 }
      { tier := some "graveyard", user := some 0, level := some 3 }).time_stamp = some 1 := by
  decide

/-- C2: the claim says update merges the partial fields, and that one tick on
(name Acme, time_stamp 5, level 3) stores time_stamp 4.  Evaluating the code:
the tick computes update data \x7btime_stamp: 4, level: 3\x7d, but the Company
model drops the data argument, so the store is unchanged and time_stamp
remains 5. -/
theorem C2_update_drops_fields :
    dailyUpdateData { name := "Acme", time_stamp := some 5, level := some 3 } =
      some ("Acme", { time_stamp := some 4, level := some 3 }) ∧
    schedulerTick [{ name := "Acme", time_stamp := some 5, level := some 3 }] =
      [{ name := "Acme", time_stamp := some 5, level := some 3 }] := by
  decide

/-- C3 counterexample: the claim says a stored time_stamp of 1000 triggers the
reset to 7, but the code checks the sentinel AFTER decrementing: at stored
time_stamp 1000 the handler emits time_stamp 999, not 7. -/
theorem C3_counterexample :
    dailyUpdateData { name := "Acme", time_stamp := some 1000, level := some 3 } =
      some ("Acme", { time_stamp := some 999, level := some 3 }) ∧
    dailyUpdateData { name := "Acme", time_stamp := some 1000, level := some 3 } ≠
      some ("Acme", { time_stamp := some 7, level := some 3 }) := by
  decide

/-- C3 amended: for every record whose DECREMENTED countdown time_stamp - 1
equals 1000 (stored time_stamp 1001), the transition resets the persisted
partial state to time_stamp 7 while preserving the possibly defaulted level. -/
theorem C3_reset_trigger_after_decrement (c : Company) (t : Int)
    (h1 : c.time_stamp = some t) (h2 : t - 1 = 1000) :
    dailyUpdateData c =
      some (c.name, { time_stamp := some 7, level := some (c.level.getD 5) }) :=
  dailyUpdateData_reset c t h1 h2

/-- C3 witness: the amended claim at the concrete record with stored
time_stamp 1001 and level 3. -/
theorem C3_reset_trigger_after_decrement_witness :
    ({ name := "Acme", time_stamp := some 1001, level := some 3 } : Company).time_stamp =
      some 1001 ∧
    (1001 : Int) - 1 = 1000 ∧
    dailyUpdateData { name := "Acme", time_stamp := some 1001, level := some 3 } =
      some ("Acme", { time_stamp := some 7, level := some 3 }) :=
  ⟨rfl, by decide,
    C3_reset_trigger_after_decrement
      { name := "Acme", time_stamp := some 1001, level := some 3 } 1001 rfl (by decide)⟩

/-- C4: for every record whose decremented countdown equals 1000 (stored
time_stamp 1001), the persisted partial state is time_stamp 7 with level
defaulting to 5 when absent (scenario C). -/
theorem C4_sentinel_reset (c : Company) (t : Int)
    (h1 : c.time_stamp = some t) (h2 : t - 1 = 1000) :
    dailyUpdateData c =
      some (c.name, { time_stamp := some 7, level := some (c.level.getD 5) }) :=
  dailyUpdateData_reset c t h1 h2

/-- C4 witness: scenario C exactly, with no stored level, so the emitted level
is the default 5. -/
theorem C4_sentinel_reset_witness :
    ({ name := "Acme", time_stamp := some 1001 } : Company).time_stamp = some 1001 ∧
    (1001 : Int) - 1 = 1000 ∧
    dailyUpdateData { name := "Acme", time_stamp := some 1001 } =
      some ("Acme", { time_stamp := some 7, level := some 5 }) :=
  ⟨rfl, by decide,
    C4_sentinel_reset { name := "Acme", time_stamp := some 1001 } 1001 rfl (by decide)⟩

/-- C5: for every record with defined time_stamp, 0 < time_stamp - 1 and
time_stamp - 1 different from 1000, the persisted partial state is exactly
time_stamp - 1 with the possibly defaulted level. -/
theorem C5_decrement_branch (c : Company) (t : Int)
    (h1 : c.time_stamp = some t) (h2 : 0 < t - 1) (h3 : t - 1 ≠ 1000) :
    dailyUpdateData c =
      some (c.name, { time_stamp := some (t - 1), level := some (c.level.getD 5) }) :=
  dailyUpdateData_decrement c t h1 h2 h3

/-- C5 witness: scenario A, stored time_stamp 5 and level 3 yields update data
time_stamp 4 and level 3. -/
theorem C5_decrement_branch_witness :
    ({ name := "Acme", time_stamp := some 5, level := some 3 } : Company).time_stamp =
      some 5 ∧
    (0 : Int) < 5 - 1 ∧ (5 : Int) - 1 ≠ 1000 ∧
    dailyUpdateData { name := "Acme", time_stamp := some 5, level := some 3 } =
      some ("Acme", { time_stamp := some 4, level := some 3 }) :=
  ⟨rfl, by decide, by decide,
    C5_decrement_branch { name := "Acme", time_stamp := some 5, level := some 3 } 5 rfl
      (by decide) (by decide)⟩

/-- C6: a record with undefined time_stamp produces no update call, and one
scheduler tick over a store holding just that record leaves the store
unchanged (scenario D). -/
theorem C6_undefined_time_stamp_no_op (c : Company) (h : c.time_stamp = none) :
    dailyUpdateData c = none ∧ schedulerTick [c] = [c] := by
  refine ⟨dailyUpdateData_none c h, ?_⟩
  simp [schedulerTick, dailyUpdateData_none c h]

/-- C6 witness: scenario D at the concrete record with only a name. -/
theorem C6_undefined_time_stamp_no_op_witness :
    ({ name := "Acme" } : Company).time_stamp = none ∧
    (dailyUpdateData { name := "Acme" } = none ∧
      schedulerTick [{ name := "Acme" }] = [{ name := "Acme" }]) :=
  ⟨rfl, C6_undefined_time_stamp_no_op { name := "Acme" } rfl⟩

/-- C7: whenever the tick handler issues an update, the level it writes is the
stored level when present and the default 5 exactly when absent; this holds in
every branch because the default is applied before branching. -/
theorem C7_level_default (c : Company) (nm : String) (d : UpdateData)
    (h : dailyUpdateData c = some (nm, d)) :
    d.level = some (c.level.getD 5) ∧
    (c.level = none → d.level = some 5) ∧
    (∀ l, c.level = some l → d.level = some l) := by
  have hmain : d.level = some (c.level.getD 5) := by
    cases ht : c.time_stamp with
    | none => rw [dailyUpdateData_none c ht] at h; exact absurd h (by simp)
    | some t =>
      by_cases hr : t - 1 = 1000
      · rw [dailyUpdateData_reset c t ht hr] at h
        simp only [Option.some.injEq, Prod.mk.injEq] at h
        rw [← h.2]
      · by_cases hz : t - 1 ≤ 0
        · rw [dailyUpdateData_terminal c t ht hz] at h
          simp only [Option.some.injEq, Prod.mk.injEq] at h
          rw [← h.2]
        · rw [dailyUpdateData_decrement c t ht (by omega) hr] at h
          simp only [Option.some.injEq, Prod.mk.injEq] at h
          rw [← h.2]
  refine ⟨hmain, ?_, ?_⟩
  · intro h0; rw [hmain, h0]; rfl
  · intro l hl; rw [hmain, hl]; rfl

/-- C7 witness: applying the branch theorem at a record with no stored level
(default 5 written) inside the decrement branch. -/
theorem C7_level_default_witness :
    dailyUpdateData { name := "Acme", time_stamp := some 5 } =
      some ("Acme", { time_stamp := some 4, level := some 5 }) ∧
    (({ time_stamp := some 4, level := some 5 } : UpdateData).level =
        some (({ name := "Acme", time_stamp := some 5 } : Company).level.getD 5) ∧
      (({ name := "Acme", time_stamp := some 5 } : Company).level = none →
        ({ time_stamp := some 4, level := some 5 } : UpdateData).level = some 5) ∧
      (∀ l, ({ name := "Acme", time_stamp := some 5 } : Company).level = some l →
        ({ time_stamp := some 4, level := some 5 } : UpdateData).level = some l)) :=
  ⟨by decide,
    C7_level_default { name := "Acme", time_stamp := some 5 } "Acme"
      { time_stamp := some 4, level := some 5 } (by decide)⟩

/-- C8: re-applying the transition to an already graveyarded record with
time_stamp 0 and tier "graveyard" emits exactly the terminal data again (the
same fields the first, graveyarding application emitted for that level), and
merging it leaves time_stamp at 0 (no decrement below 0) and tier still
"graveyard". -/
theorem C8_graveyard_idempotent (c : Company)
    (h1 : c.time_stamp = some 0) (_h2 : c.tier = some "graveyard") :
    dailyUpdateData c =
      some (c.name,
        { tier := some "graveyard", user := some 0, level := some (c.level.getD 5) }) ∧
    (applySet c
        { tier := some "graveyard", user := some 0,
          level := some (c.level.getD 5) }).time_stamp = some 0 ∧
    (applySet c
        { tier := some "graveyard", user := some 0,
          level := some (c.level.getD 5) }).tier = some "graveyard" := by
  refine ⟨dailyUpdateData_terminal c 0 h1 (by omega), ?_, ?_⟩ <;>
    simp [applySet, h1]

/-- C8 witness: the graveyarded Acme record with time_stamp 0 and level 3. -/
theorem C8_graveyard_idempotent_witness :
    ({ name := "Acme", time_stamp := some 0, level := some 3,
        tier := some "graveyard" } : Company).time_stamp = some 0 ∧
    ({ name := "Acme", time_stamp := some 0, level := some 3,
        tier := some "graveyard" } : Company).tier = some "graveyard" ∧
    (dailyUpdateData
        { name := "Acme", time_stamp := some 0, level := some 3,
          tier := some "graveyard" } =
      some ("Acme",
        { tier := some "graveyard", user := some 0, level := some 3 }) ∧
    (applySet
        { name := "Acme", time_stamp := some 0, level := some 3,
          tier := some "graveyard" }
        { tier := some "graveyard", user := some 0, level := some 3 }).time_stamp =
      some 0 ∧
    (applySet
        { name := "Acme", time_stamp := some 0, level := some 3,
          tier := some "graveyard" }
        { tier := some "graveyard", user := some 0, level := some 3 }).tier =
      some "graveyard") :=
  ⟨rfl, rfl,
    C8_graveyard_idempotent
      { name := "Acme", time_stamp := some 0, level := some 3,
        tier := some "graveyard" } rfl rfl⟩

/-- A JavaScript value as it flows through the Company.get callback chain:
undefined, null, an array of fetched documents, or a single document. -/
inductive JSVal where
  | undef : JSVal
  | null : JSVal
  | docsArr : List Company → JSVal
  | doc : Company → JSVal
deriving Repr, DecidableEq

/-- JavaScript truthiness for the values above: undefined and null are falsy;
any object, an array included (even an empty one), is truthy. -/
def js_truthy : JSVal → Bool
  | JSVal.undef => false
  | JSVal.null => false
  | JSVal.docsArr _ => true
  | JSVal.doc _ => true

/-- The documents matching the id filter of Company.get.  We read the filter
charitably as matching the stored identifier (the JS filter keys id while the
documents carry the store-assigned _id); the claim fails even under this
charitable reading, through the callback convention alone. -/
def fetchById (docs : List Company) (id : Nat) : List Company :=
  docs.filter (fun c => c.mongoId = some id)

/-- src/unnamed/part_000 exports.get composed with src/db.js exports.fetch:
db.fetch resolves by invoking its callback as cb(docs) with the fetched array
as the single (first) argument, so the error-first inner callback of
Company.get receives err := docs and docs := undefined; the array is truthy,
so the body if (err) return cb(err) fires and the caller receives the whole
fetched array in the ERROR position.  The result is the pair of values
Company.get passes to its caller callback (error position, success
position); the success branch cb(null, docs[0]) is unreachable because a JS
array is always truthy. -/
def Company.get (docs : List Company) (id : Nat) : JSVal × JSVal :=
  let found := fetchById docs id
  let errArg : JSVal := JSVal.docsArr found
  if js_truthy errArg then (errArg, JSVal.undef)
  else (JSVal.null, JSVal.undef)

/-- C9: the claim says get returns the first match via its success result and
does not deliver the fetched records through its error position.  Evaluating
the code at a store holding one matching record: the caller callback receives
the whole fetched array in the error position and undefined in the success
position. -/
theorem C9_get_delivers_via_error_position :
    Company.get [{ mongoId := some 1, name := "Acme" }] 1 =
      (JSVal.docsArr [{ mongoId := some 1, name := "Acme" }], JSVal.undef) ∧
    (Company.get [{ mongoId := some 1, name := "Acme" }] 1).1 ≠ JSVal.null ∧
    (Company.get [{ mongoId := some 1, name := "Acme" }] 1).2 ≠
      JSVal.doc { mongoId := some 1, name := "Acme" } := by
  decide

/-- Helper: updateOne with no matching document is the identity without
upsert, and appends exactly one new document with upsert. -/
theorem updateOne_no_match (docs : List Company) (crit : String) (d : UpdateData)
    (h : ∀ c ∈ docs, c.name ≠ crit) :
    updateOne docs crit d false = docs ∧
    updateOne docs crit d true = docs ++ [applySet { name := crit } d] := by
  induction docs with
  | nil => simp [updateOne]
  | cons c rest ih =>
    have hc : c.name ≠ crit := h c (List.mem_cons_self c rest)
    have hrest : ∀ x ∈ rest, x.name ≠ crit := fun x hx => h x (List.mem_cons_of_mem c hx)
    have := ih hrest
    simp [updateOne, hc, this.1, this.2]

/-- Helper: updateOne rewrites only the first matching document and leaves
every other document, matching or not, unchanged; with and without upsert. -/
theorem updateOne_first_match (pre : List Company) (c : Company) (post : List Company)
    (crit : String) (d : UpdateData) (upsert : Bool)
    (hpre : ∀ x ∈ pre, x.name ≠ crit) (hc : c.name = crit) :
    updateOne (pre ++ c :: post) crit d upsert = pre ++ applySet c d :: post := by
  induction pre with
  | nil => simp [updateOne, hc]
  | cons p rest ih =>
    have hp : p.name ≠ crit := hpre p (List.mem_cons_self p rest)
    have hrest : ∀ x ∈ rest, x.name ≠ crit := fun x hx => hpre x (List.mem_cons_of_mem p hx)
    simp [updateOne, hp, ih hrest]

/-- C10: the store adapter update and upsert modify at most one document even
when several share the name (only the first match is rewritten, all other
documents are untouched); update with upsert false never creates a document
when nothing matches, while upsert creates exactly one new document exactly
when nothing matches. -/
theorem C10_update_upsert_at_most_one (docs : List Company) (crit : String)
    (d : UpdateData) :
    ((∀ c ∈ docs, c.name ≠ crit) →
      db.update docs crit (some d) = docs ∧
      db.upsert docs crit d = docs ++ [applySet { name := crit } d]) ∧
    (∀ pre c post, docs = pre ++ c :: post →
      (∀ x ∈ pre, x.name ≠ crit) → c.name = crit →
      db.update docs crit (some d) = pre ++ applySet c d :: post ∧
      db.upsert docs crit d = pre ++ applySet c d :: post) := by
  constructor
  · intro h
    have := updateOne_no_match docs crit d h
    exact ⟨this.1, this.2⟩
  · intro pre c post hsplit hpre hc
    subst hsplit
    exact ⟨updateOne_first_match pre c post crit d false hpre hc,
      updateOne_first_match pre c post crit d true hpre hc⟩

/-- C10 witness: a store with two documents both named Acme; update and upsert
rewrite only the first and leave the duplicate untouched. -/
theorem C10_update_upsert_at_most_one_witness :
    db.update
        [{ mongoId := some 1, name := "Acme", time_stamp := some 5 },
          { mongoId := some 2, name := "Acme", time_stamp := some 9 }]
        "Acme" (some { time_stamp := some 4 }) =
      [applySet { mongoId := some 1, name := "Acme", time_stamp := some 5 }
          { time_stamp := some 4 },
        { mongoId := some 2, name := "Acme", time_stamp := some 9 }] ∧
    db.upsert
        [{ mongoId := some 1, name := "Acme", time_stamp := some 5 },
          { mongoId := some 2, name := "Acme", time_stamp := some 9 }]
        "Acme" { time_stamp := some 4 } =
      [applySet { mongoId := some 1, name := "Acme", time_stamp := some 5 }
          { time_stamp := some 4 },
        { mongoId := some 2, name := "Acme", time_stamp := some 9 }] :=
  (C10_update_upsert_at_most_one
      [{ mongoId := some 1, name := "Acme", time_stamp := some 5 },
        { mongoId := some 2, name := "Acme", time_stamp := some 9 }]
      "Acme" { time_stamp := some 4 }).2
    [] { mongoId := some 1, name := "Acme", time_stamp := some 5 }
    [{ mongoId := some 2, name := "Acme", time_stamp := some 9 }]
    rfl (by simp) rfl
